import Mathlib

/-!
Verification of the `oxide-auth-actix` adapter layer: a shallow embedding of
`src/oxide-auth-actix/src/lib.rs` (request/response adapters, the unified
`WebError` type and its conversions, and the dispatch envelope), together
with theorems about the embedded operations.

Modelling conventions:
* Header values are byte lists (`List Nat`), matching the `http` crate's
  `HeaderValue`, which may hold arbitrary opaque bytes.
* `HeaderValue::to_str` succeeds exactly on visible-ASCII bytes (32..126)
  plus horizontal tab, as in the `http` crate.
* `HttpTryFrom::try_from` on a string succeeds exactly when every character
  is a legal header-value character (code 32.., excluding DEL 127, plus tab).
* Rust methods taking `&mut self` and returning `Result<(), E>` are embedded
  as state-passing functions returning the updated state paired with the
  `Result`, so that mutations performed before an early error return are
  preserved, exactly as in the source.
-/

namespace OxideAuthActix

/-- Model of `oxide_auth::endpoint::NormalizedParameter` (an ordered
key/value multimap); the adapter never inspects its contents, only stores
and hands it back, so an association list is a faithful carrier. -/
abbrev NormalizedParameter := List (String × String)

/-- Bytes of an HTTP header value (`http::header::HeaderValue`). -/
abbrev HeaderValue := List Nat

/-- Model of `oxide_auth::endpoint::OAuthError` (external engine error). -/
inductive OAuthError
  | DenySilently
  | PrimitiveError
  | BadRequest
deriving DecidableEq, Repr

/-- Model of `http::header::InvalidHeaderValue` (opaque error payload). -/
structure InvalidHeaderValue where
deriving DecidableEq, Repr

/-- Model of `http::header::InvalidHeaderValueBytes` (opaque error payload). -/
structure InvalidHeaderValueBytes where
deriving DecidableEq, Repr

/-- The unified error type `WebError` of `oxide-auth-actix`. -/
inductive WebError
  | Endpoint (e : OAuthError)
  | Header (e : InvalidHeaderValue)
  | HeaderBytes (e : InvalidHeaderValueBytes)
  | Encoding
  | Form
  | Query
  | Body
  | Authorization
  | Canceled
  | Mailbox
deriving DecidableEq, Repr

/-- `http` crate: a byte readable by `HeaderValue::to_str` is visible ASCII
(32..126) or horizontal tab. -/
def isVisibleAsciiByte (b : Nat) : Bool :=
  (32 ≤ b && b < 127) || b == 9

/-- Model of `HeaderValue::to_str().ok().map(str::to_owned)`: `some` of the
decoded string when every byte is visible ASCII, `none` otherwise. -/
def headerValueToStr (hv : HeaderValue) : Option String :=
  if hv.all isVisibleAsciiByte then some (String.mk (hv.map Char.ofNat)) else none

/-- `http` crate: a character legal inside a constructed header value
(`HeaderValue::from_str` validity): code point 32 and above except DEL,
or horizontal tab.  Code points 128 and above encode to bytes ≥ 128,
which `from_str` accepts. -/
def isValidHeaderValueChar (c : Char) : Bool :=
  (32 ≤ c.toNat && c.toNat != 127) || c.toNat == 9

/-- Model of `HttpTryFrom::try_from` on a `&str` for building a header
value (http 0.1's `HeaderValue::from_str` path, error
`InvalidHeaderValue`), with the failure already converted to `WebError`
as the source's `?` operator does via `From<InvalidHeaderValue>`. -/
def tryFromHeaderStr (s : String) : Except WebError String :=
  if s.toList.all isValidHeaderValueChar then Except.ok s
  else Except.error (WebError.Header ⟨⟩)

/-- Model of `HttpTryFrom::try_from` on an owned `String` (http 0.1's
`HeaderValue::from_shared` path, error `InvalidHeaderValueBytes`), with
the failure converted to `WebError` via `From<InvalidHeaderValueBytes>`.
The byte-validity boundary is the same as for the `&str` path; only the
error type differs.  `redirect` is the sole caller handing `try_from` an
owned `String` (`url.into_string()`). -/
def tryFromHeaderString (s : String) : Except WebError String :=
  if s.toList.all isValidHeaderValueChar then Except.ok s
  else Except.error (WebError.HeaderBytes ⟨⟩)

instance {ε α : Type} [DecidableEq ε] [DecidableEq α] : DecidableEq (Except ε α) := fun x y =>
  match x, y with
  | Except.ok a, Except.ok b =>
    if h : a = b then isTrue (by simp [h]) else isFalse (by simp [h])
  | Except.ok _, Except.error _ => isFalse (by simp)
  | Except.error _, Except.ok _ => isFalse (by simp)
  | Except.error e, Except.error g =>
    if h : e = g then isTrue (by simp [h]) else isFalse (by simp [h])

/-- Model of Rust `Result::ok()`: drop the error into `Option`. -/
def exceptOk {ε α : Type} : Except ε α → Option α
  | Except.ok a => some a
  | Except.error _ => none

/-- `OAuthRequest`: auth header, parsed query, parsed form body. -/
structure OAuthRequest where
  auth : Option String
  query : Option NormalizedParameter
  body : Option NormalizedParameter
deriving DecidableEq, Repr

/-- `OAuthRequest::new`.  Inputs model the data the source draws from the
`HttpRequest` and `Payload`: the list of all `AUTHORIZATION` header values
(`headers().get_all`), the result of `Query::extract` and the result of
`Form::from_request`.  Query and form failures are absorbed by `.ok()`;
two or more Authorization headers abort with `WebError::Authorization`;
a sole header value is decoded by `to_str().ok()`. -/
def OAuthRequest.new (allAuth : List HeaderValue)
    (query_res : Except Unit NormalizedParameter)
    (form_res : Except Unit NormalizedParameter) : Except WebError OAuthRequest :=
  let body := exceptOk form_res
  let query := exceptOk query_res
  let optional := allAuth.head?
  match (allAuth.drop 1).head? with
  | some _ => Except.error WebError.Authorization
  | none =>
    let auth := optional.bind (fun hv => headerValueToStr hv)
    Except.ok ⟨auth, query, body⟩

/-- `WebRequest::query` for `OAuthRequest`:
`self.query.as_ref().map(..).ok_or(WebError::Query)`. -/
def OAuthRequest.queryAccessor (r : OAuthRequest) : Except WebError NormalizedParameter :=
  match r.query with
  | some q => Except.ok q
  | none => Except.error WebError.Query

/-- `WebRequest::urlbody` for `OAuthRequest`:
`self.body.as_ref().map(..).ok_or(WebError::Body)`. -/
def OAuthRequest.urlbody (r : OAuthRequest) : Except WebError NormalizedParameter :=
  match r.body with
  | some b => Except.ok b
  | none => Except.error WebError.Body

/-- `WebRequest::authheader` for `OAuthRequest`: unconditionally `Ok`. -/
def OAuthRequest.authheader (r : OAuthRequest) : Except WebError (Option String) :=
  Except.ok r.auth

/-- `OAuthResource`: the header-only guard adapter. -/
structure OAuthResource where
  auth : Option String
deriving DecidableEq, Repr

/-- `OAuthResource::new`: same Authorization extraction as
`OAuthRequest::new`, from the list of all `AUTHORIZATION` header values. -/
def OAuthResource.new (allAuth : List HeaderValue) : Except WebError OAuthResource :=
  let optional := allAuth.head?
  match (allAuth.drop 1).head? with
  | some _ => Except.error WebError.Authorization
  | none => Except.ok ⟨optional.bind (fun hv => headerValueToStr hv)⟩

/-- `OAuthResource::into_request`: query and body forced absent. -/
def OAuthResource.into_request (r : OAuthResource) : OAuthRequest :=
  ⟨r.auth, none, none⟩

/-- The header names the response side of the adapter touches. -/
inductive HeaderName
  | location
  | wwwAuthenticate
  | contentType
deriving DecidableEq, Repr

/-- Response header map; `insert` replaces any previous value, as
`http::HeaderMap::insert` does. -/
def HeaderMap := HeaderName → Option String

/-- The empty header map (`HeaderMap::new`). -/
def HeaderMap.empty : HeaderMap := fun _ => none

/-- `HeaderMap::insert`: set `n` to `v`, every other name untouched. -/
def HeaderMap.insert (m : HeaderMap) (n : HeaderName) (v : String) : HeaderMap :=
  fun k => if k = n then some v else m k

/-- `OAuthResponse`: status code, headers, optional body. -/
structure OAuthResponse where
  status : Nat
  headers : HeaderMap
  body : Option String

/-- A parsed URL, carried by its string form (`Url::into_string`). -/
structure Url where
  into_string : String
deriving DecidableEq, Repr

/-- `OAuthResponse::ok` / `Default::default`: status 200, no headers,
no body. -/
def OAuthResponse.mkDefault : OAuthResponse :=
  ⟨200, HeaderMap.empty, none⟩

/-- `WebResponse::ok` for `OAuthResponse`: sets status 200. -/
def OAuthResponse.okAction (r : OAuthResponse) : OAuthResponse × Except WebError Unit :=
  (⟨200, r.headers, r.body⟩, Except.ok ())

/-- `WebResponse::redirect`: the status is set to 302 FIRST, then the
Location header is built from the owned `String` `url.into_string()`
(so a failure is `WebError::HeaderBytes`); the failure returns with the
status already mutated, exactly as the `&mut self` source does. -/
def OAuthResponse.redirect (r : OAuthResponse) (url : Url) :
    OAuthResponse × Except WebError Unit :=
  let r1 : OAuthResponse := ⟨302, r.headers, r.body⟩
  match tryFromHeaderString url.into_string with
  | Except.ok v =>
    (⟨r1.status, r1.headers.insert HeaderName.location v, r1.body⟩, Except.ok ())
  | Except.error e => (r1, Except.error e)

/-- `WebResponse::client_error`: sets status 400. -/
def OAuthResponse.client_error (r : OAuthResponse) : OAuthResponse × Except WebError Unit :=
  (⟨400, r.headers, r.body⟩, Except.ok ())

/-- `WebResponse::unauthorized`: status 401, then WWW-Authenticate header
from `kind`; on header failure the status mutation persists. -/
def OAuthResponse.unauthorized (r : OAuthResponse) (kind : String) :
    OAuthResponse × Except WebError Unit :=
  let r1 : OAuthResponse := ⟨401, r.headers, r.body⟩
  match tryFromHeaderStr kind with
  | Except.ok v =>
    (⟨r1.status, r1.headers.insert HeaderName.wwwAuthenticate v, r1.body⟩, Except.ok ())
  | Except.error e => (r1, Except.error e)

/-- `WebResponse::body_text`: body := text, then Content-Type :=
"text/plain"; the status is never touched. -/
def OAuthResponse.body_text (r : OAuthResponse) (text : String) :
    OAuthResponse × Except WebError Unit :=
  let r1 : OAuthResponse := ⟨r.status, r.headers, some text⟩
  match tryFromHeaderStr "text/plain" with
  | Except.ok v =>
    (⟨r1.status, r1.headers.insert HeaderName.contentType v, r1.body⟩, Except.ok ())
  | Except.error e => (r1, Except.error e)

/-- `WebResponse::body_json`: body := json, then Content-Type :=
"application/json"; the status is never touched. -/
def OAuthResponse.body_json (r : OAuthResponse) (json : String) :
    OAuthResponse × Except WebError Unit :=
  let r1 : OAuthResponse := ⟨r.status, r.headers, some json⟩
  match tryFromHeaderStr "application/json" with
  | Except.ok v =>
    (⟨r1.status, r1.headers.insert HeaderName.contentType v, r1.body⟩, Except.ok ())
  | Except.error e => (r1, Except.error e)

/-- Model of `actix::MailboxError`. -/
inductive MailboxError
  | Closed
  | Timeout
deriving DecidableEq, Repr

/-- Model of `actix_web::error::BlockingError<E>`. -/
inductive BlockingError (E : Type)
  | Canceled
  | Error (e : E)
deriving DecidableEq, Repr

/-- `From<MailboxError> for WebError`. -/
def webErrorOfMailbox : MailboxError → WebError
  | MailboxError.Closed => WebError.Mailbox
  | MailboxError.Timeout => WebError.Canceled

/-- `From<BlockingError<E>> for WebError`, with the `E: Into<WebError>`
bound passed explicitly. -/
def webErrorOfBlocking {E : Type} (toWeb : E → WebError) : BlockingError E → WebError
  | BlockingError.Canceled => WebError.Canceled
  | BlockingError.Error e => toWeb e

/-- `From<OAuthError> for WebError`. -/
def webErrorOfOAuth (e : OAuthError) : WebError :=
  WebError.Endpoint e

/-- `From<InvalidHeaderValue> for WebError`. -/
def webErrorOfInvalidHeaderValue (e : InvalidHeaderValue) : WebError :=
  WebError.Header e

/-- `From<InvalidHeaderValueBytes> for WebError`. -/
def webErrorOfInvalidHeaderValueBytes (e : InvalidHeaderValueBytes) : WebError :=
  WebError.HeaderBytes e

/-- The status code of the HTTP response rendered from a `WebError`.
The source's `impl ResponseError for WebError` has an empty body
("Default to 500 for now"), so the rendered response is actix-web's
default `ResponseError::error_response`, which is
`HttpResponse::new(StatusCode::INTERNAL_SERVER_ERROR)` for every value. -/
def WebError.errorResponseStatus (_ : WebError) : Nat :=
  500

/-- The dispatch envelope `OxideMessage<T>` (a newtype wrapper). -/
structure OxideMessage (T : Type) where
  val : T
deriving DecidableEq, Repr

/-- `OxideOperation::wrap`: `OxideMessage(self)`. -/
def OxideOperation.wrap {T : Type} (t : T) : OxideMessage T :=
  ⟨t⟩

/-- `OxideMessage::into_inner`: `self.0`. -/
def OxideMessage.into_inner {T : Type} (m : OxideMessage T) : T :=
  m.val

/-! ### Helper lemmas -/

/-- A string of valid header-value characters passes `try_from`. -/
theorem tryFrom_ok_of_valid (s : String) (h : s.toList.all isValidHeaderValueChar = true) :
    tryFromHeaderStr s = Except.ok s := by
  unfold tryFromHeaderStr
  rw [if_pos h]

/-- A string holding an illegal character fails `try_from` with the
header-construction error. -/
theorem tryFrom_err_of_invalid (s : String)
    (h : s.toList.all isValidHeaderValueChar = false) :
    tryFromHeaderStr s = Except.error (WebError.Header ⟨⟩) := by
  have hc : ¬ (s.toList.all isValidHeaderValueChar = true) := by
    rw [h]
    exact Bool.false_ne_true
  unfold tryFromHeaderStr
  rw [if_neg hc]

/-- A string of valid header-value characters passes the owned-`String`
`try_from` as well. -/
theorem tryFromString_ok_of_valid (s : String)
    (h : s.toList.all isValidHeaderValueChar = true) :
    tryFromHeaderString s = Except.ok s := by
  unfold tryFromHeaderString
  rw [if_pos h]

/-- A string holding an illegal character fails the owned-`String`
`try_from` with the header-bytes construction error. -/
theorem tryFromString_err_of_invalid (s : String)
    (h : s.toList.all isValidHeaderValueChar = false) :
    tryFromHeaderString s = Except.error (WebError.HeaderBytes ⟨⟩) := by
  have hc : ¬ (s.toList.all isValidHeaderValueChar = true) := by
    rw [h]
    exact Bool.false_ne_true
  unfold tryFromHeaderString
  rw [if_neg hc]

/-- The literal "text/plain" is a valid header value. -/
theorem tryFrom_text_plain_eq : tryFromHeaderStr "text/plain" = Except.ok "text/plain" := by
  decide

/-- The literal "application/json" is a valid header value. -/
theorem tryFrom_app_json_eq :
    tryFromHeaderStr "application/json" = Except.ok "application/json" := by
  decide

/-! ### Claim theorems -/

/-- C7: every kind of the unified error type `WebError` renders, by the
default policy, an HTTP response with status code 500. -/
theorem web_error_default_status_500 (e : WebError) :
    WebError.errorResponseStatus e = 500 := rfl

/-- C8: unwrapping after wrapping is the identity on every operation
value, so the dispatch envelope `OxideMessage` loses no information and
the run contract of the unwrapped value is that of the original. -/
theorem wrap_into_inner_identity {T : Type} (t : T) :
    OxideMessage.into_inner (OxideOperation.wrap t) = t := rfl

/-- C10: for every successfully constructed `OAuthRequest`, the
`authheader` accessor returns `Ok` of the stored value; its error branch
is unreachable. -/
theorem authheader_always_ok (allAuth : List HeaderValue)
    (q f : Except Unit NormalizedParameter) (r : OAuthRequest)
    (h : OAuthRequest.new allAuth q f = Except.ok r) :
    r.authheader = Except.ok r.auth := rfl

/-- Witness for C10 at a concrete constructed request. -/
theorem authheader_always_ok_witness :
    OAuthRequest.authheader ⟨none, none, none⟩ = Except.ok none :=
  authheader_always_ok [] (Except.error ()) (Except.error ()) ⟨none, none, none⟩ (by decide)

/-- C9: a request carrying exactly one Authorization header whose value
does not decode as text (`to_str` fails) constructs successfully through
both `OAuthRequest::new` and `OAuthResource::new` with `auth = none`:
the undecodable value is silently dropped, not an error. -/
theorem single_undecodable_auth_header_dropped (hv : HeaderValue)
    (q f : Except Unit NormalizedParameter)
    (h : headerValueToStr hv = none) :
    OAuthRequest.new [hv] q f = Except.ok ⟨none, exceptOk q, exceptOk f⟩
    ∧ OAuthResource.new [hv] = Except.ok ⟨none⟩ := by
  constructor
  · simp [OAuthRequest.new, h]
  · simp [OAuthResource.new, h]

/-- Witness for C9: the one-byte header value `[0]` is undecodable and is
dropped by both constructors. -/
theorem single_undecodable_auth_header_dropped_witness :
    OAuthRequest.new [[0]] (Except.error ()) (Except.error ()) = Except.ok ⟨none, none, none⟩
    ∧ OAuthResource.new [[0]] = Except.ok ⟨none⟩ :=
  single_undecodable_auth_header_dropped [0] (Except.error ()) (Except.error ()) (by decide)

/-- C6: `body_json "\x7b\x7d"` sets Content-Type "application/json" and
body "\x7b\x7d"; a subsequent `body_text "x"` on the same response
overwrites both: Content-Type becomes "text/plain" and the body "x". -/
theorem body_json_then_body_text_overwrites (r : OAuthResponse) :
    ((r.body_json "\x7b\x7d").fst.headers HeaderName.contentType = some "application/json")
    ∧ ((r.body_json "\x7b\x7d").fst.body = some "\x7b\x7d")
    ∧ (((r.body_json "\x7b\x7d").fst.body_text "x").fst.headers HeaderName.contentType
        = some "text/plain")
    ∧ (((r.body_json "\x7b\x7d").fst.body_text "x").fst.body = some "x") := by
  simp [OAuthResponse.body_json, OAuthResponse.body_text, tryFrom_app_json_eq,
    tryFrom_text_plain_eq, HeaderMap.insert]

/-- C1 counterexample: with exactly one Authorization header whose value
(the single byte 200) is not decodable text, construction succeeds with
`auth = none` — the header's value is NOT preserved, contradicting the
claim that a sole header is always preserved unchanged. -/
theorem auth_header_single_undecodable_not_preserved :
    OAuthRequest.new [[200]] (Except.error ()) (Except.error ())
      = Except.ok ⟨none, none, none⟩
    ∧ OAuthResource.new [[200]] = Except.ok ⟨none⟩ := by
  decide

/-- C1 (amended): with exactly one Authorization header whose value
decodes as text, construction preserves the decoded value; with two or
more headers it fails with `WebError.Authorization`; with zero headers it
succeeds with `auth = none` (an undecodable sole header also succeeds,
with `auth = none`). -/
theorem auth_header_count_cases (hv h1 h2 : HeaderValue) (rest : List HeaderValue)
    (s : String) (q f : Except Unit NormalizedParameter)
    (hdec : headerValueToStr hv = some s) :
    (OAuthRequest.new [hv] q f = Except.ok ⟨some s, exceptOk q, exceptOk f⟩
      ∧ OAuthResource.new [hv] = Except.ok ⟨some s⟩)
    ∧ (OAuthRequest.new (h1 :: h2 :: rest) q f = Except.error WebError.Authorization
      ∧ OAuthResource.new (h1 :: h2 :: rest) = Except.error WebError.Authorization)
    ∧ (OAuthRequest.new [] q f = Except.ok ⟨none, exceptOk q, exceptOk f⟩
      ∧ OAuthResource.new [] = Except.ok ⟨none⟩) := by
  refine ⟨⟨?_, ?_⟩, ⟨?_, ?_⟩, ?_, ?_⟩ <;>
    simp [OAuthRequest.new, OAuthResource.new, hdec]

/-- Witness for C1 at concrete header values. -/
theorem auth_header_count_cases_witness :
    OAuthRequest.new [[66]] (Except.error ()) (Except.error ())
      = Except.ok ⟨some "B", none, none⟩
    ∧ OAuthRequest.new [[66], [67]] (Except.error ()) (Except.error ())
      = Except.error WebError.Authorization
    ∧ OAuthRequest.new [] (Except.error ()) (Except.error ())
      = Except.ok ⟨none, none, none⟩ := by
  have h := auth_header_count_cases [66] [66] [67] [] "B"
    (Except.error ()) (Except.error ()) (by decide)
  exact ⟨h.1.1, h.2.1.1, h.2.2.1⟩

/-- C2: query/body parse failures are not fatal at construction: the
field is stored absent, and `WebError.Query` / `WebError.Body` surface
exactly when the respective accessor is called on an absent field; a
present field is returned without error, and reading the Authorization
field never fails. -/
theorem deferred_extraction_errors (allAuth : List HeaderValue)
    (q f : Except Unit NormalizedParameter) (r : OAuthRequest)
    (h : OAuthRequest.new allAuth q f = Except.ok r) :
    (r.query = exceptOk q ∧ r.body = exceptOk f)
    ∧ (q = Except.error () → r.queryAccessor = Except.error WebError.Query)
    ∧ (f = Except.error () → r.urlbody = Except.error WebError.Body)
    ∧ (∀ p, r.query = some p → r.queryAccessor = Except.ok p)
    ∧ (∀ p, r.body = some p → r.urlbody = Except.ok p)
    ∧ r.authheader = Except.ok r.auth := by
  unfold OAuthRequest.new at h
  cases hd : (allAuth.drop 1).head? with
  | some x => rw [hd] at h; exact absurd h (by simp)
  | none =>
    rw [hd] at h
    injection h with h2
    subst h2
    refine ⟨⟨rfl, rfl⟩, ?_, ?_, ?_, ?_, rfl⟩
    · intro hq; subst hq; rfl
    · intro hf; subst hf; rfl
    · intro p hp; simp [OAuthRequest.queryAccessor, hp]
      simp at hp; simp [hp]
    · intro p hp; simp [OAuthRequest.urlbody, hp]
      simp at hp; simp [hp]

/-- Witness for C2: both parses failed, both accessors raise their
respective error on the constructed request. -/
theorem deferred_extraction_errors_witness :
    OAuthRequest.queryAccessor ⟨none, none, none⟩ = Except.error WebError.Query
    ∧ OAuthRequest.urlbody ⟨none, none, none⟩ = Except.error WebError.Body := by
  have h := deferred_extraction_errors [] (Except.error ()) (Except.error ())
    ⟨none, none, none⟩ (by decide)
  exact ⟨h.2.1 rfl, h.2.2.1 rfl⟩

/-- C3 counterexample: redirecting to a URL whose string form holds a
control character (a newline) fails with the header-bytes construction
error (`try_from` on the owned `String` goes through
`InvalidHeaderValueBytes`), but the status has ALREADY been mutated to
302 — it is not left at its value (200) from before the call. -/
theorem redirect_failure_status_mutated :
    (OAuthResponse.mkDefault.redirect ⟨"https://a/cb\n"⟩).snd
      = Except.error (WebError.HeaderBytes ⟨⟩)
    ∧ (OAuthResponse.mkDefault.redirect ⟨"https://a/cb\n"⟩).fst.status = 302
    ∧ OAuthResponse.mkDefault.status = 200 := by
  decide

/-- C3 (amended): `redirect` with a valid header-value URL succeeds,
sets status 302 and Location to exactly the URL's string form; with an
invalid one it returns the header-bytes construction error
(`WebError::HeaderBytes`, since `try_from` is given the owned `String`)
and leaves the headers untouched, but the status is nevertheless set to
302 (the status mutation precedes the fallible header construction). -/
theorem redirect_sets_status_and_location (r : OAuthResponse) (url : Url) :
    (url.into_string.toList.all isValidHeaderValueChar = true →
      (r.redirect url).snd = Except.ok ()
      ∧ (r.redirect url).fst.status = 302
      ∧ (r.redirect url).fst.headers HeaderName.location = some url.into_string)
    ∧ (url.into_string.toList.all isValidHeaderValueChar = false →
      (r.redirect url).snd = Except.error (WebError.HeaderBytes ⟨⟩)
      ∧ (r.redirect url).fst.status = 302
      ∧ (∀ n, (r.redirect url).fst.headers n = r.headers n)) := by
  constructor
  · intro hvalid
    simp [OAuthResponse.redirect, tryFromString_ok_of_valid url.into_string hvalid,
      HeaderMap.insert]
  · intro hinvalid
    simp [OAuthResponse.redirect, tryFromString_err_of_invalid url.into_string hinvalid]

/-- Witness for C3 on a well-formed URL. -/
theorem redirect_sets_status_and_location_witness :
    (OAuthResponse.mkDefault.redirect ⟨"https://a/cb"⟩).snd = Except.ok ()
    ∧ (OAuthResponse.mkDefault.redirect ⟨"https://a/cb"⟩).fst.status = 302
    ∧ (OAuthResponse.mkDefault.redirect ⟨"https://a/cb"⟩).fst.headers HeaderName.location
      = some "https://a/cb" :=
  (redirect_sets_status_and_location OAuthResponse.mkDefault ⟨"https://a/cb"⟩).1 (by decide)

/-- C4 counterexample: a dispatch timeout (`MailboxError::Timeout`) maps
to `WebError.Canceled`, the very same kind a canceled background
operation (`BlockingError::Canceled`) maps to — so the timeout is NOT
distinguishable from the canceled kind. -/
theorem timeout_maps_to_canceled_kind :
    webErrorOfMailbox MailboxError.Timeout = WebError.Canceled
    ∧ webErrorOfBlocking (fun e => e) (BlockingError.Canceled : BlockingError WebError)
      = WebError.Canceled := by
  decide

/-- C4 (amended): the conversions preserve the origin's kind for
header-construction failures, canceled background operations, closed
dispatch queues and engine protocol errors; the canceled kind and the
queue-full kind are distinct; but a dispatch timeout collapses into the
canceled kind and is not distinguishable from it. -/
theorem web_error_conversion_kinds :
    (∀ e, webErrorOfInvalidHeaderValue e = WebError.Header e)
    ∧ (∀ e, webErrorOfInvalidHeaderValueBytes e = WebError.HeaderBytes e)
    ∧ (∀ (E : Type) (toWeb : E → WebError),
        webErrorOfBlocking toWeb BlockingError.Canceled = WebError.Canceled)
    ∧ (∀ (E : Type) (toWeb : E → WebError) (e : E),
        webErrorOfBlocking toWeb (BlockingError.Error e) = toWeb e)
    ∧ webErrorOfMailbox MailboxError.Closed = WebError.Mailbox
    ∧ webErrorOfMailbox MailboxError.Timeout = WebError.Canceled
    ∧ (∀ e, webErrorOfOAuth e = WebError.Endpoint e)
    ∧ WebError.Canceled ≠ WebError.Mailbox := by
  exact ⟨fun _ => rfl, fun _ => rfl, fun _ _ => rfl, fun _ _ _ => rfl,
    rfl, rfl, fun _ => rfl, by decide⟩

/-- C5 counterexample: `body_text` does not set (determine) the status
code: applied with the same argument to two responses differing only in
status, both applications succeed yet yield different statuses. -/
theorem body_text_does_not_determine_status :
    ((OAuthResponse.mk 400 HeaderMap.empty none).body_text "x").snd = Except.ok ()
    ∧ ((OAuthResponse.mk 200 HeaderMap.empty none).body_text "x").snd = Except.ok ()
    ∧ ((OAuthResponse.mk 400 HeaderMap.empty none).body_text "x").fst.status
      ≠ ((OAuthResponse.mk 200 HeaderMap.empty none).body_text "x").fst.status := by
  decide

/-- C5 (amended): `ok`, `redirect`, `client_error` and `unauthorized`
set the status (200/302/400/401); `body_text` and `body_json` leave the
status unchanged. Each successful action modifies at most the one header
it owns (Location, WWW-Authenticate, Content-Type) and retains every
other header; the body is retained except by the body-setting actions,
which set it. -/
theorem response_action_frame (r : OAuthResponse) (url : Url) (kind text json : String) :
    ((r.okAction).fst.status = 200
      ∧ (∀ n, (r.okAction).fst.headers n = r.headers n)
      ∧ (r.okAction).fst.body = r.body
      ∧ (r.okAction).snd = Except.ok ())
    ∧ ((r.redirect url).snd = Except.ok () →
        (r.redirect url).fst.status = 302
        ∧ (∀ n, n ≠ HeaderName.location → (r.redirect url).fst.headers n = r.headers n)
        ∧ (r.redirect url).fst.body = r.body)
    ∧ ((r.client_error).fst.status = 400
      ∧ (∀ n, (r.client_error).fst.headers n = r.headers n)
      ∧ (r.client_error).fst.body = r.body
      ∧ (r.client_error).snd = Except.ok ())
    ∧ ((r.unauthorized kind).snd = Except.ok () →
        (r.unauthorized kind).fst.status = 401
        ∧ (∀ n, n ≠ HeaderName.wwwAuthenticate →
            (r.unauthorized kind).fst.headers n = r.headers n)
        ∧ (r.unauthorized kind).fst.body = r.body)
    ∧ ((r.body_text text).snd = Except.ok ()
      ∧ (r.body_text text).fst.status = r.status
      ∧ (∀ n, n ≠ HeaderName.contentType → (r.body_text text).fst.headers n = r.headers n)
      ∧ (r.body_text text).fst.headers HeaderName.contentType = some "text/plain"
      ∧ (r.body_text text).fst.body = some text)
    ∧ ((r.body_json json).snd = Except.ok ()
      ∧ (r.body_json json).fst.status = r.status
      ∧ (∀ n, n ≠ HeaderName.contentType → (r.body_json json).fst.headers n = r.headers n)
      ∧ (r.body_json json).fst.headers HeaderName.contentType = some "application/json"
      ∧ (r.body_json json).fst.body = some json) := by
  refine ⟨⟨rfl, fun n => rfl, rfl, rfl⟩, ?_, ⟨rfl, fun n => rfl, rfl, rfl⟩, ?_, ?_, ?_⟩
  · intro hok
    cases htry : tryFromHeaderString url.into_string with
    | error e => simp [OAuthResponse.redirect, htry] at hok
    | ok v =>
      refine ⟨by simp [OAuthResponse.redirect, htry], ?_, by simp [OAuthResponse.redirect, htry]⟩
      intro n hn
      simp [OAuthResponse.redirect, htry, HeaderMap.insert, hn]
  · intro hok
    cases htry : tryFromHeaderStr kind with
    | error e => simp [OAuthResponse.unauthorized, htry] at hok
    | ok v =>
      refine ⟨by simp [OAuthResponse.unauthorized, htry], ?_,
        by simp [OAuthResponse.unauthorized, htry]⟩
      intro n hn
      simp [OAuthResponse.unauthorized, htry, HeaderMap.insert, hn]
  · refine ⟨?_, ?_, ?_, ?_, ?_⟩ <;>
      simp [OAuthResponse.body_text, tryFrom_text_plain_eq, HeaderMap.insert]
    intro n hn
    simp [hn]
  · refine ⟨?_, ?_, ?_, ?_, ?_⟩ <;>
      simp [OAuthResponse.body_json, tryFrom_app_json_eq, HeaderMap.insert]
    intro n hn
    simp [hn]

/-- Witness for C5 at concrete responses and arguments. -/
theorem response_action_frame_witness :
    (OAuthResponse.mkDefault.redirect ⟨"https://a/cb"⟩).fst.status = 302
    ∧ (OAuthResponse.mkDefault.unauthorized "Bearer").fst.status = 401
    ∧ (OAuthResponse.mkDefault.body_text "x").fst.status = 200 := by
  have h := response_action_frame OAuthResponse.mkDefault ⟨"https://a/cb"⟩ "Bearer" "x" "j"
  exact ⟨(h.2.1 (by decide)).1, (h.2.2.2.1 (by decide)).1, h.2.2.2.2.1.2.1⟩

end OxideAuthActix
